import Mathlib

/-!
Verification of the quixel adapter layer (src/lib.rs): a shallow embedding
of the window/surface initializer (QuixelWindow::new) and of the event
dispatcher (QuixelWindow::start) that forwards winit events to the methods
of a user-supplied WindowProcessor.

External collaborators (winit, pixels) are modelled as follows: their event
and payload types become inductive types mirroring the variants the
dispatcher matches on (unknown payloads become opaque Nat tokens, since the
dispatcher never inspects them); outcomes the libraries decide at run time
(resize success, render success, the current instant, and what the
processor writes into the control flow during callbacks that receive it
mutably) become an explicit environment record consumed by each iteration.
Callback invocations and the side effects issued on the window and surface
are recorded as an action trace, so ordering claims become statements about
lists. A panic (the two unwrap calls on resize) is modelled as Option.none.
-/

namespace Quixel

/-- Physical size in pixels, mirroring winit PhysicalSize with u32 fields. -/
structure PhysicalSize where
  width : Nat
  height : Nat
deriving DecidableEq, Repr

/-- Cursor position, mirroring winit PhysicalPosition of f64; the dispatcher
never computes on coordinates, so they are carried as opaque Int tokens. -/
structure PhysicalPosition where
  x : Int
  y : Int
deriving DecidableEq, Repr

/-- Mirror of winit ElementState. -/
inductive ElementState where
  | pressed
  | released
deriving DecidableEq, Repr

/-- Mirror of winit MouseButton. -/
inductive MouseButton where
  | left
  | right
  | middle
  | other (id : Nat)
deriving DecidableEq, Repr

/-- Mirror of winit MouseScrollDelta; f64 line deltas are opaque Int tokens. -/
inductive MouseScrollDelta where
  | lineDelta (x y : Int)
  | pixelDelta (pos : PhysicalPosition)
deriving DecidableEq, Repr

/-- Mirror of winit TouchPhase. -/
inductive TouchPhase where
  | started
  | moved
  | ended
  | cancelled
deriving DecidableEq, Repr

/-- Mirror of winit KeyboardInput (scan code, state, virtual key code). -/
structure KeyboardInput where
  scancode : Nat
  state : ElementState
  virtualKeycode : Option Nat
deriving DecidableEq, Repr

/-- Mirror of winit WindowEvent. The variants the dispatcher matches by name
carry their payloads; the remaining variants (commented out in the source
and caught by its wildcard arm) carry opaque tokens. -/
inductive WindowEvent where
  | resized (size : PhysicalSize)
  | moved (pos : PhysicalPosition)
  | closeRequested
  | destroyed
  | droppedFile (path : Nat)
  | hoveredFile (path : Nat)
  | hoveredFileCancelled
  | receivedCharacter (c : Nat)
  | focused (gainedFocus : Bool)
  | keyboardInput (input : KeyboardInput)
  | modifiersChanged (modifiers : Nat)
  | ime (ime : Nat)
  | cursorMoved (position : PhysicalPosition)
  | cursorEntered
  | cursorLeft
  | mouseWheel (delta : MouseScrollDelta) (phase : TouchPhase)
  | mouseInput (state : ElementState) (button : MouseButton)
  | touchpadPressure (pressure : Nat) (stage : Int)
  | axisMotion (axis : Nat) (value : Int)
  | touch (t : Nat)
  | scaleFactorChanged (scaleFactor : Nat) (newInnerSize : PhysicalSize)
  | themeChanged (theme : Nat)
  | occluded (b : Bool)
deriving DecidableEq, Repr

/-- Mirror of winit Event with a unit user-event type, as in the source
(EventLoop of unit). -/
inductive Event where
  | newEvents (cause : Nat)
  | windowEvent (windowId : Nat) (event : WindowEvent)
  | deviceEvent (deviceId : Nat) (event : Nat)
  | userEvent
  | suspended
  | resumed
  | mainEventsCleared
  | redrawRequested (windowId : Nat)
  | redrawEventsCleared
  | loopDestroyed
deriving DecidableEq, Repr

/-- Mirror of winit ControlFlow; set_exit stands for exitWithCode 0. -/
inductive ControlFlow where
  | poll
  | wait
  | waitUntil (instant : Nat)
  | exitWithCode (code : Int)
deriving DecidableEq, Repr

/-- Whether a control flow directive is an exit directive. -/
def ControlFlow.isExit : ControlFlow → Bool
  | .exitWithCode _ => true
  | _ => false

/-- Opaque token for winit OsError. -/
abbrev OsError := Nat

/-- Opaque token for pixels::Error. -/
abbrev PixelsError := Nat

/-- One method of the WindowProcessor trait together with the payload it is
invoked with. The onUpdate and onRenderError variants also record the value
the control flow holds when the callback is entered, since those two methods
receive it mutably. -/
inductive Callback where
  | onStart
  | onUpdate (dt : Nat) (controlFlowSeen : ControlFlow)
  | onRender
  | onRenderError (error : PixelsError) (controlFlowSeen : ControlFlow)
  | onInput (input : KeyboardInput)
  | onClick (state : ElementState) (button : MouseButton)
  | onScroll (scrollDelta : MouseScrollDelta) (phase : TouchPhase)
  | onCursorMove (newPosition : PhysicalPosition)
  | onCursorInWindowChange (cursorInWindow : Bool)
  | onWindowResize (size : PhysicalSize)
  | onWindowFocus (gainedFocus : Bool)
  | onWindowClose
  | onQuit
  | onMiscEvent (event : Event)
deriving DecidableEq, Repr

/-- One observable effect of a dispatcher iteration, in program order:
calls into pixels (resize_surface, resize_buffer, render) and into the
window (request_redraw), and callback invocations on the processor. -/
inductive Action where
  | resizeSurface (size : PhysicalSize)
  | resizeBuffer (size : PhysicalSize)
  | requestRedraw
  | present
  | invoke (c : Callback)
deriving DecidableEq, Repr

/-- State of the pixels surface as far as the adapter drives it: the
dimensions of the presentation surface texture and of the frame buffer. -/
structure Pixels where
  surfaceSize : PhysicalSize
  bufferSize : PhysicalSize
deriving DecidableEq, Repr

/-- Dispatcher state threaded between iterations: the pixels sizes, the
Instant stored in dt, and the current control flow directive. -/
structure DispatchState where
  pixels : Pixels
  dtStart : Nat
  controlFlow : ControlFlow
deriving DecidableEq, Repr

/-- Environment for one dispatcher iteration: everything the external
libraries and the processor decide at run time. now is the reading of
Instant::now; the two resize flags say whether pixels accepts the resize
calls; renderResult is the outcome of pixels.render (some e means failure
with error e); the two optional control flow values are what the processor
writes into the mutably borrowed control flow during onUpdate respectively
onRenderError (none means it leaves the value alone). -/
structure Env where
  now : Nat
  surfaceResizeOk : Bool
  bufferResizeOk : Bool
  renderResult : Option PixelsError
  updateSetControlFlow : Option ControlFlow
  renderErrorSetControlFlow : Option ControlFlow
deriving DecidableEq, Repr

/-- One iteration of the closure passed to event_loop.run in
QuixelWindow::start. The control flow is first reset by set_wait, then the
event is matched exactly as in the source. Returns none when the iteration
panics (the unwrap on a failed resize_surface or resize_buffer), otherwise
the successor state and the trace of actions in program order. -/
def step (env : Env) (s : DispatchState) : Event → Option (DispatchState × List Action)
  | .windowEvent _ we =>
    match we with
    | .resized size =>
      if env.surfaceResizeOk then
        if env.bufferResizeOk then
          some (⟨⟨size, size⟩, s.dtStart, .wait⟩,
            [.resizeSurface size, .resizeBuffer size, .requestRedraw,
             .invoke (.onWindowResize size)])
        else none
      else none
    | .closeRequested =>
      some (⟨s.pixels, s.dtStart, .exitWithCode 0⟩, [.invoke .onQuit])
    | .destroyed =>
      some (⟨s.pixels, s.dtStart, .exitWithCode 0⟩, [.invoke .onQuit])
    | .focused gainedFocus =>
      some (⟨s.pixels, s.dtStart, .wait⟩, [.invoke (.onWindowFocus gainedFocus)])
    | .keyboardInput input =>
      some (⟨s.pixels, s.dtStart, .wait⟩, [.invoke (.onInput input)])
    | .cursorMoved position =>
      some (⟨s.pixels, s.dtStart, .wait⟩, [.invoke (.onCursorMove position)])
    | .cursorEntered =>
      some (⟨s.pixels, s.dtStart, .wait⟩, [.invoke (.onCursorInWindowChange true)])
    | .cursorLeft =>
      some (⟨s.pixels, s.dtStart, .wait⟩, [.invoke (.onCursorInWindowChange false)])
    | .mouseWheel delta phase =>
      some (⟨s.pixels, s.dtStart, .wait⟩, [.invoke (.onScroll delta phase)])
    | .mouseInput state button =>
      some (⟨s.pixels, s.dtStart, .wait⟩, [.invoke (.onClick state button)])
    | _ =>
      some (⟨s.pixels, s.dtStart, .wait⟩, [])
  | .mainEventsCleared =>
    some (⟨s.pixels, env.now, env.updateSetControlFlow.getD .wait⟩,
      [.invoke (.onUpdate (env.now - s.dtStart) .wait), .requestRedraw])
  | .redrawRequested _ =>
    match env.renderResult with
    | none =>
      some (⟨s.pixels, s.dtStart, .wait⟩, [.invoke .onRender, .present])
    | some e =>
      some (⟨s.pixels, s.dtStart, env.renderErrorSetControlFlow.getD .wait⟩,
        [.invoke .onRender, .present, .invoke (.onRenderError e .wait)])
  | .loopDestroyed =>
    some (⟨s.pixels, s.dtStart, .exitWithCode 0⟩, [.invoke .onQuit])
  | misc =>
    some (⟨s.pixels, s.dtStart, .wait⟩, [.invoke (.onMiscEvent misc)])

/-- The callbacks invoked in a trace, in order. -/
def callbacksOf (acts : List Action) : List Callback :=
  acts.filterMap fun a =>
    match a with
    | .invoke c => some c
    | _ => none

/-- Whether an iteration on this event under this environment leaves the
control flow set to exit. The source only exits on close-requested,
destroyed and loop-destroyed, or when the processor itself sets exit during
onUpdate or onRenderError; this is independent of the incoming state. -/
def stepExits (env : Env) : Event → Bool
  | .windowEvent _ .closeRequested => true
  | .windowEvent _ .destroyed => true
  | .mainEventsCleared => (env.updateSetControlFlow.getD .wait).isExit
  | .redrawRequested _ =>
    match env.renderResult with
    | some _ => (env.renderErrorSetControlFlow.getD .wait).isExit
    | none => false
  | .loopDestroyed => true
  | _ => false

/-- Whether an iteration on this event under this environment panics: only
the resized branch can, through its two unwrap calls. -/
def stepPanics (env : Env) : Event → Bool
  | .windowEvent _ (.resized _) => !(env.surfaceResizeOk && env.bufferResizeOk)
  | _ => false

/-- The event loop run over a list of (event, environment) pairs: each event
is dispatched through step; when an iteration sets the control flow to exit,
winit delivers the final loopDestroyed event and the loop ends, discarding
the remaining events. Returns none if any iteration panics. -/
def run (s : DispatchState) : List (Event × Env) → Option (DispatchState × List Action)
  | [] => some (s, [])
  | (e, env) :: rest =>
    match step env s e with
    | none => none
    | some (s1, acts) =>
      if s1.controlFlow.isExit then
        match step env s1 .loopDestroyed with
        | none => none
        | some (s2, acts2) => some (s2, acts ++ acts2)
      else
        match run s1 rest with
        | none => none
        | some (s3, acts3) => some (s3, acts ++ acts3)

/-- Mirror of the Window handle: the adapter only ever reads its physical
inner size. -/
structure Window where
  innerSize : PhysicalSize
deriving DecidableEq, Repr

/-- Mirror of WindowCreationError in the source. -/
inductive WindowCreationError where
  | windowError (e : OsError)
  | pixelsError (e : PixelsError)
deriving DecidableEq, Repr

/-- Mirror of the QuixelWindow bundle: window, pixels, event loop and
processor (the latter two as opaque tokens, since the embedding tracks the
processor through the action trace). -/
structure QuixelWindow where
  window : Window
  pixels : Pixels
  eventLoop : Unit
  windowProcessor : Nat
deriving DecidableEq, Repr

/-- Environment for QuixelWindow::new: the outcome of
window_builder.build (the created window with its inner size, or the OS
error) and the outcome of Pixels::new (some e means failure). -/
structure NewEnv where
  buildResult : Except OsError Window
  pixelsResult : Option PixelsError
  windowProcessor : Nat
deriving Repr

/-- Mirror of QuixelWindow::new: build the window (propagating a build
failure as WindowError), read its inner size, construct a Pixels of exactly
that size (propagating a failure as PixelsError), and return the bundle. -/
def QuixelWindow.new (env : NewEnv) : Except WindowCreationError QuixelWindow :=
  match env.buildResult with
  | .error e => .error (.windowError e)
  | .ok window =>
    match env.pixelsResult with
    | some e => .error (.pixelsError e)
    | none =>
      .ok { window := window,
            pixels := ⟨window.innerSize, window.innerSize⟩,
            eventLoop := (),
            windowProcessor := env.windowProcessor }

/-- The dispatcher state at loop entry for a bundle: the pixels as created,
dt freshly taken (time origin 0), and the initial control flow. -/
def initState (q : QuixelWindow) : DispatchState :=
  ⟨q.pixels, 0, .poll⟩

/-- Mirror of QuixelWindow::start: invoke on_start once, then run the event
loop over the supplied events. -/
def QuixelWindow.start (q : QuixelWindow) (events : List (Event × Env)) :
    Option (DispatchState × List Action) :=
  match run (initState q) events with
  | none => none
  | some (s, acts) => some (s, .invoke .onStart :: acts)

/-- A benign environment: resizes succeed, rendering succeeds, the
processor leaves the control flow alone, the clock reads 5. -/
def envOk : Env := ⟨5, true, true, none, none, none⟩

/-- An environment in which pixels.render fails with error 7. -/
def envRenderFail : Env := ⟨5, true, true, some 7, none, none⟩

/-- A concrete dispatcher state for witnesses: an 8 by 6 surface and
buffer, clock origin 0, control flow wait. -/
def state0 : DispatchState := ⟨⟨⟨8, 6⟩, ⟨8, 6⟩⟩, 0, .wait⟩

/-- An environment whose surface resize is rejected by pixels. -/
def envSurfaceFail : Env := ⟨5, false, true, none, none, none⟩

/-- The callbacks invoked by one dispatcher iteration (none on panic). -/
def stepCallbacks (env : Env) (s : DispatchState) (e : Event) : Option (List Callback) :=
  (step env s e).map fun out => callbacksOf out.2

/-- The first resize call (of either kind) issued in a trace. -/
def firstResize (acts : List Action) : Option Action :=
  acts.find? fun a =>
    match a with
    | .resizeSurface _ => true
    | .resizeBuffer _ => true
    | _ => false

/-- A concrete keyboard event payload. -/
def key0 : KeyboardInput := ⟨10, .pressed, some 20⟩

/-- A creation environment in which both the window build and the pixels
construction succeed, for an 8 by 6 window. -/
def newEnvOk : NewEnv := ⟨.ok ⟨⟨8, 6⟩⟩, none, 0⟩

/-- The window events the dispatcher matches by name (the arms present in
the source match). -/
def enumeratedWindowEvent : WindowEvent → Bool
  | .resized _ => true
  | .closeRequested => true
  | .destroyed => true
  | .focused _ => true
  | .keyboardInput _ => true
  | .cursorMoved _ => true
  | .cursorEntered => true
  | .cursorLeft => true
  | .mouseWheel _ _ => true
  | .mouseInput _ _ => true
  | _ => false

/-- The top level events the dispatcher names in its match: window events,
the idle cycle event, the redraw event and the loop destroyed event. All
remaining events fall to the catch-all arm. -/
def topLevelNamed : Event → Bool
  | .windowEvent _ _ => true
  | .mainEventsCleared => true
  | .redrawRequested _ => true
  | .loopDestroyed => true
  | _ => false

/-- Whether an action is the presentation of the surface. -/
def isPresent : Action → Bool
  | .present => true
  | _ => false

/-- Helper: a non-exiting, non-panicking iteration never invokes onQuit
(the quit callback is tied to the three exiting events). -/
theorem onQuit_not_of_not_exit (env : Env) (s : DispatchState) (e : Event)
    (out : DispatchState × List Action) (hx : stepExits env e = false)
    (h : step env s e = some out) : Callback.onQuit ∉ callbacksOf out.2 := by
  cases e with
  | windowEvent wid we =>
    cases we <;> simp only [step] at h
    case resized size =>
      rcases hs : env.surfaceResizeOk <;> rcases hb : env.bufferResizeOk <;>
        rw [hs, hb] at h
      · exact Option.noConfusion h
      · exact Option.noConfusion h
      · exact Option.noConfusion h
      · injection h with h2; subst h2; simp [callbacksOf]
    all_goals first
      | (injection h with h2; subst h2; simp [callbacksOf]; done)
      | (simp [stepExits] at hx)
  | redrawRequested wid =>
    rcases hr : env.renderResult with _ | er <;>
      simp only [step, hr] at h <;> (injection h with h2; subst h2) <;>
      simp [callbacksOf]
  | loopDestroyed => simp [stepExits] at hx
  | newEvents c =>
    simp only [step] at h; injection h with h2; subst h2; simp [callbacksOf]
  | deviceEvent d ev =>
    simp only [step] at h; injection h with h2; subst h2; simp [callbacksOf]
  | userEvent =>
    simp only [step] at h; injection h with h2; subst h2; simp [callbacksOf]
  | suspended =>
    simp only [step] at h; injection h with h2; subst h2; simp [callbacksOf]
  | resumed =>
    simp only [step] at h; injection h with h2; subst h2; simp [callbacksOf]
  | redrawEventsCleared =>
    simp only [step] at h; injection h with h2; subst h2; simp [callbacksOf]
  | mainEventsCleared =>
    simp only [step] at h; injection h with h2; subst h2; simp [callbacksOf]

/-- Helper: the control flow a non-panicking iteration leaves behind is exit
exactly when stepExits says so; in particular it never depends on the
incoming state. -/
theorem stepExits_correct (env : Env) (s : DispatchState) (e : Event)
    (out : DispatchState × List Action) (h : step env s e = some out) :
    out.1.controlFlow.isExit = stepExits env e := by
  cases e with
  | windowEvent wid we =>
    cases we <;> simp only [step] at h
    case resized size =>
      rcases hs : env.surfaceResizeOk <;> rcases hb : env.bufferResizeOk <;>
        rw [hs, hb] at h
      · exact Option.noConfusion h
      · exact Option.noConfusion h
      · exact Option.noConfusion h
      · injection h with h2; subst h2; simp [stepExits, ControlFlow.isExit]
    all_goals (injection h with h2; subst h2; simp [stepExits, ControlFlow.isExit])
  | redrawRequested wid =>
    rcases hr : env.renderResult with _ | er <;>
      simp only [step, hr] at h <;> (injection h with h2; subst h2) <;>
      simp [stepExits, hr, ControlFlow.isExit]
  | newEvents c =>
    simp only [step] at h; injection h with h2; subst h2
    simp [stepExits, ControlFlow.isExit]
  | deviceEvent d ev =>
    simp only [step] at h; injection h with h2; subst h2
    simp [stepExits, ControlFlow.isExit]
  | userEvent =>
    simp only [step] at h; injection h with h2; subst h2
    simp [stepExits, ControlFlow.isExit]
  | suspended =>
    simp only [step] at h; injection h with h2; subst h2
    simp [stepExits, ControlFlow.isExit]
  | resumed =>
    simp only [step] at h; injection h with h2; subst h2
    simp [stepExits, ControlFlow.isExit]
  | redrawEventsCleared =>
    simp only [step] at h; injection h with h2; subst h2
    simp [stepExits, ControlFlow.isExit]
  | mainEventsCleared =>
    simp only [step] at h; injection h with h2; subst h2
    simp [stepExits, ControlFlow.isExit]
  | loopDestroyed =>
    simp only [step] at h; injection h with h2; subst h2
    simp [stepExits, ControlFlow.isExit]

/-- Helper: an iteration panics exactly when stepPanics says so. -/
theorem stepPanics_correct (env : Env) (s : DispatchState) (e : Event) :
    step env s e = none ↔ stepPanics env e = true := by
  cases e with
  | windowEvent wid we =>
    cases we <;>
      simp only [step, stepPanics] <;>
      rcases hs : env.surfaceResizeOk <;> rcases hb : env.bufferResizeOk <;> simp [hs, hb]
  | redrawRequested wid =>
    rcases hr : env.renderResult with _ | er <;> simp [step, stepPanics, hr]
  | _ => simp [step, stepPanics]

/-- Claim C2: the constructor returns either a complete bundle whose pixel
surface and buffer dimensions equal the created window physical inner size,
or exactly one of the two creation error kinds, the Window variant carrying
the platform error when the build fails and the Pixels variant carrying the
library error when surface creation fails, never both a value and an
error. -/
theorem new_complete_bundle_or_single_error (env : NewEnv) :
    (∀ e, env.buildResult = .error e →
      QuixelWindow.new env = .error (.windowError e)) ∧
    (∀ w e, env.buildResult = .ok w → env.pixelsResult = some e →
      QuixelWindow.new env = .error (.pixelsError e)) ∧
    (∀ w, env.buildResult = .ok w → env.pixelsResult = none →
      QuixelWindow.new env =
        .ok ⟨w, ⟨w.innerSize, w.innerSize⟩, (), env.windowProcessor⟩) ∧
    (∀ q, QuixelWindow.new env = .ok q →
      q.pixels.surfaceSize = q.window.innerSize ∧
      q.pixels.bufferSize = q.window.innerSize) ∧
    ¬ ((∃ q, QuixelWindow.new env = .ok q) ∧ (∃ e, QuixelWindow.new env = .error e)) := by
  refine ⟨?_, ?_, ?_, ?_, ?_⟩
  · intro e he; simp [QuixelWindow.new, he]
  · intro w e hw hp; simp [QuixelWindow.new, hw, hp]
  · intro w hw hp; simp [QuixelWindow.new, hw, hp]
  · intro q hq
    unfold QuixelWindow.new at hq
    rcases hb : env.buildResult with e | w <;> rw [hb] at hq
    · simp at hq
    · rcases hp : env.pixelsResult with _ | pe <;> rw [hp] at hq
      · injection hq with h2; subst h2; simp
      · simp at hq
  · rintro ⟨⟨q, hq⟩, ⟨e, he⟩⟩
    rw [hq] at he
    simp at he

/-- Witness for C2 at a concrete successful configuration. -/
theorem new_complete_bundle_or_single_error_witness :
    QuixelWindow.new newEnvOk = .ok ⟨⟨⟨8, 6⟩⟩, ⟨⟨8, 6⟩, ⟨8, 6⟩⟩, (), 0⟩ :=
  (new_complete_bundle_or_single_error newEnvOk).2.2.1 ⟨⟨8, 6⟩⟩ rfl rfl

/-- Claim C3: on a resized event the dispatcher resizes the presentation
surface, then the frame buffer, then requests a redraw, then invokes the
resize callback with the new size, in that order; afterwards the frame
buffer dimensions equal the new window physical size. -/
theorem resized_order_and_buffer_matches (env : Env) (s : DispatchState)
    (wid : Nat) (size : PhysicalSize)
    (hs : env.surfaceResizeOk = true) (hb : env.bufferResizeOk = true) :
    step env s (.windowEvent wid (.resized size)) =
      some (⟨⟨size, size⟩, s.dtStart, .wait⟩,
        [.resizeSurface size, .resizeBuffer size, .requestRedraw,
         .invoke (.onWindowResize size)]) ∧
    (∀ out, step env s (.windowEvent wid (.resized size)) = some out →
      out.1.pixels.bufferSize = size) := by
  have h1 : step env s (.windowEvent wid (.resized size)) =
      some (⟨⟨size, size⟩, s.dtStart, .wait⟩,
        [.resizeSurface size, .resizeBuffer size, .requestRedraw,
         .invoke (.onWindowResize size)]) := by
    simp [step, hs, hb]
  refine ⟨h1, ?_⟩
  intro out hout
  rw [h1] at hout
  injection hout with h2
  subst h2
  rfl

/-- Witness for C3 at a concrete resize to 4 by 3. -/
theorem resized_order_and_buffer_matches_witness :
    step envOk state0 (.windowEvent 0 (.resized ⟨4, 3⟩)) =
      some (⟨⟨⟨4, 3⟩, ⟨4, 3⟩⟩, 0, .wait⟩,
        [.resizeSurface ⟨4, 3⟩, .resizeBuffer ⟨4, 3⟩, .requestRedraw,
         .invoke (.onWindowResize ⟨4, 3⟩)]) :=
  (resized_order_and_buffer_matches envOk state0 0 ⟨4, 3⟩ rfl rfl).1

/-- Claim C8: a rejected surface or buffer resize panics the iteration: the
step yields no state, no callback and no return value, and conversely
whenever the iteration completes both resizes succeeded. -/
theorem resize_failure_is_fatal (env : Env) (s : DispatchState)
    (wid : Nat) (size : PhysicalSize) :
    (env.surfaceResizeOk = false ∨ env.bufferResizeOk = false →
      step env s (.windowEvent wid (.resized size)) = none) ∧
    (∀ out, step env s (.windowEvent wid (.resized size)) = some out →
      env.surfaceResizeOk = true ∧ env.bufferResizeOk = true) := by
  rcases hs : env.surfaceResizeOk <;> rcases hb : env.bufferResizeOk <;>
    simp [step, hs, hb]

/-- Witness for C8: a rejected surface resize panics. -/
theorem resize_failure_is_fatal_witness :
    step envSurfaceFail state0 (.windowEvent 0 (.resized ⟨4, 3⟩)) = none :=
  (resize_failure_is_fatal envSurfaceFail state0 0 ⟨4, 3⟩).1 (Or.inl rfl)

/-- Claim C9 as stated is false: at a concrete resize event the first
resize call the dispatcher issues is resize_surface, not resize_buffer, so
the buffer is not resized first. -/
theorem resized_buffer_first_counterexample :
    firstResize (((step envOk state0 (.windowEvent 0 (.resized ⟨4, 3⟩))).getD
        (state0, [])).2) = some (.resizeSurface ⟨4, 3⟩) ∧
    firstResize (((step envOk state0 (.windowEvent 0 (.resized ⟨4, 3⟩))).getD
        (state0, [])).2) ≠ some (.resizeBuffer ⟨4, 3⟩) := by
  decide

/-- Claim C9 amended: on a size change the presentation surface is resized
first and the frame buffer second, back to back, and afterwards both hold
the new size. -/
theorem resized_surface_then_buffer (env : Env) (s : DispatchState)
    (wid : Nat) (size : PhysicalSize) :
    ∀ out, step env s (.windowEvent wid (.resized size)) = some out →
      out.2.take 2 = [.resizeSurface size, .resizeBuffer size] ∧
      out.1.pixels.surfaceSize = size ∧ out.1.pixels.bufferSize = size := by
  rcases hs : env.surfaceResizeOk <;> rcases hb : env.bufferResizeOk <;>
    simp [step, hs, hb]

/-- Witness for C9 amended at a concrete resize to 4 by 3. -/
theorem resized_surface_then_buffer_witness :
    ([Action.resizeSurface ⟨4, 3⟩, Action.resizeBuffer ⟨4, 3⟩,
        Action.requestRedraw,
        Action.invoke (Callback.onWindowResize ⟨4, 3⟩)].take 2 =
      [Action.resizeSurface ⟨4, 3⟩, Action.resizeBuffer ⟨4, 3⟩]) ∧
    (⟨⟨4, 3⟩, ⟨4, 3⟩⟩ : Pixels).surfaceSize = ⟨4, 3⟩ ∧
    (⟨⟨4, 3⟩, ⟨4, 3⟩⟩ : Pixels).bufferSize = ⟨4, 3⟩ := by
  have h := resized_surface_then_buffer envOk state0 0 ⟨4, 3⟩
    (⟨⟨⟨4, 3⟩, ⟨4, 3⟩⟩, 0, .wait⟩,
      [.resizeSurface ⟨4, 3⟩, .resizeBuffer ⟨4, 3⟩, .requestRedraw,
       .invoke (.onWindowResize ⟨4, 3⟩)]) rfl
  exact h

/-- Claim C1 amended: each enumerated window event calls exactly its named
callback with the event payload verbatim, unenumerated window events invoke
no callback, and every top level event outside the named categories is
passed verbatim to the catch-all callback; a redraw event whose presentation
succeeds invokes only the render callback, and every event invokes at most
one callback except a redraw event whose presentation fails, which invokes
exactly two, the render callback and then the render error callback with
the failure value. -/
theorem dispatch_single_named_callback (env : Env) (s : DispatchState) (wid : Nat) :
    (∀ size, env.surfaceResizeOk = true → env.bufferResizeOk = true →
      stepCallbacks env s (.windowEvent wid (.resized size)) =
        some [.onWindowResize size]) ∧
    stepCallbacks env s (.windowEvent wid .closeRequested) = some [.onQuit] ∧
    stepCallbacks env s (.windowEvent wid .destroyed) = some [.onQuit] ∧
    (∀ b, stepCallbacks env s (.windowEvent wid (.focused b)) =
      some [.onWindowFocus b]) ∧
    (∀ i, stepCallbacks env s (.windowEvent wid (.keyboardInput i)) =
      some [.onInput i]) ∧
    (∀ p, stepCallbacks env s (.windowEvent wid (.cursorMoved p)) =
      some [.onCursorMove p]) ∧
    stepCallbacks env s (.windowEvent wid .cursorEntered) =
      some [.onCursorInWindowChange true] ∧
    stepCallbacks env s (.windowEvent wid .cursorLeft) =
      some [.onCursorInWindowChange false] ∧
    (∀ d ph, stepCallbacks env s (.windowEvent wid (.mouseWheel d ph)) =
      some [.onScroll d ph]) ∧
    (∀ st b, stepCallbacks env s (.windowEvent wid (.mouseInput st b)) =
      some [.onClick st b]) ∧
    (∀ we, enumeratedWindowEvent we = false →
      stepCallbacks env s (.windowEvent wid we) = some []) ∧
    (∀ e, topLevelNamed e = false →
      stepCallbacks env s e = some [.onMiscEvent e]) ∧
    (∀ w2, env.renderResult = none →
      stepCallbacks env s (.redrawRequested w2) = some [.onRender]) ∧
    (∀ w2 er, env.renderResult = some er →
      stepCallbacks env s (.redrawRequested w2) =
        some [.onRender, .onRenderError er .wait]) ∧
    (∀ e out, step env s e = some out →
      (callbacksOf out.2).length ≤ 1 ∨
      ∃ w2 er, e = .redrawRequested w2 ∧ env.renderResult = some er ∧
        callbacksOf out.2 = [.onRender, .onRenderError er .wait]) := by
  refine ⟨fun size hs hb => ?_, ?_, ?_, fun b => ?_, fun i => ?_, fun p => ?_,
    ?_, ?_, fun d ph => ?_, fun st b => ?_, fun we hwe => ?_, fun e he => ?_,
    fun w2 hr => ?_, fun w2 er hr => ?_, fun e out h => ?_⟩
  · simp [stepCallbacks, step, hs, hb, callbacksOf]
  · rfl
  · rfl
  · rfl
  · rfl
  · rfl
  · rfl
  · rfl
  · rfl
  · rfl
  · cases we <;> simp [enumeratedWindowEvent] at hwe <;>
      simp [stepCallbacks, step, callbacksOf]
  · cases e <;> simp [topLevelNamed] at he <;>
      simp [stepCallbacks, step, callbacksOf]
  · simp [stepCallbacks, step, hr, callbacksOf]
  · simp [stepCallbacks, step, hr, callbacksOf]
  · cases e with
    | redrawRequested w2 =>
      rcases hr : env.renderResult with _ | er
      · refine Or.inl ?_
        simp only [step, hr] at h
        injection h with h2; subst h2; simp [callbacksOf]
      · refine Or.inr ⟨w2, er, rfl, rfl, ?_⟩
        simp only [step, hr] at h
        injection h with h2; subst h2; simp [callbacksOf]
    | windowEvent w2 we =>
      refine Or.inl ?_
      cases we <;> simp only [step] at h
      case resized size =>
        rcases hs : env.surfaceResizeOk <;> rcases hb : env.bufferResizeOk <;>
          rw [hs, hb] at h
        · exact Option.noConfusion h
        · exact Option.noConfusion h
        · exact Option.noConfusion h
        · injection h with h2; subst h2; simp [callbacksOf]
      all_goals (injection h with h2; subst h2; simp [callbacksOf])
    | newEvents c =>
      refine Or.inl ?_
      simp only [step] at h; injection h with h2; subst h2; simp [callbacksOf]
    | deviceEvent d ev =>
      refine Or.inl ?_
      simp only [step] at h; injection h with h2; subst h2; simp [callbacksOf]
    | userEvent =>
      refine Or.inl ?_
      simp only [step] at h; injection h with h2; subst h2; simp [callbacksOf]
    | suspended =>
      refine Or.inl ?_
      simp only [step] at h; injection h with h2; subst h2; simp [callbacksOf]
    | resumed =>
      refine Or.inl ?_
      simp only [step] at h; injection h with h2; subst h2; simp [callbacksOf]
    | redrawEventsCleared =>
      refine Or.inl ?_
      simp only [step] at h; injection h with h2; subst h2; simp [callbacksOf]
    | mainEventsCleared =>
      refine Or.inl ?_
      simp only [step] at h; injection h with h2; subst h2; simp [callbacksOf]
    | loopDestroyed =>
      refine Or.inl ?_
      simp only [step] at h; injection h with h2; subst h2; simp [callbacksOf]

/-- Witness for C1 amended at a concrete resize event and at a concrete
failing redraw event. -/
theorem dispatch_single_named_callback_witness :
    stepCallbacks envOk state0 (.windowEvent 0 (.resized ⟨4, 3⟩)) =
      some [.onWindowResize ⟨4, 3⟩] ∧
    stepCallbacks envRenderFail state0 (.redrawRequested 0) =
      some [.onRender, .onRenderError 7 .wait] :=
  ⟨(dispatch_single_named_callback envOk state0 0).1 ⟨4, 3⟩ rfl rfl,
    (dispatch_single_named_callback envRenderFail state0 0).2.2.2.2.2.2.2.2.2.2.2.2.2.1
      0 7 rfl⟩

/-- Claim C1 as stated is false: a redraw event whose presentation fails
invokes two callbacks, the render callback and the render error callback,
not at most one. -/
theorem dispatch_single_named_callback_counterexample :
    stepCallbacks envRenderFail state0 (.redrawRequested 0) =
      some [.onRender, .onRenderError 7 .wait] ∧
    ¬ (((stepCallbacks envRenderFail state0 (.redrawRequested 0)).getD []).length ≤ 1) := by
  decide

/-- Claim C6: on the idle cycle event the dispatcher invokes the update
callback with the time elapsed since the previous idle cycle (the control
flow reading wait), then issues exactly one redraw request, then resets the
elapsed time clock to the current instant; and no branch other than the
idle cycle branch and the resize branch ever issues a redraw request. -/
theorem idle_cycle_update_redraw_clock (env : Env) (s : DispatchState) :
    step env s .mainEventsCleared =
      some (⟨s.pixels, env.now, env.updateSetControlFlow.getD .wait⟩,
        [.invoke (.onUpdate (env.now - s.dtStart) .wait), .requestRedraw]) ∧
    (∀ e out, step env s e = some out → Action.requestRedraw ∈ out.2 →
      e = .mainEventsCleared ∨ ∃ wid size, e = .windowEvent wid (.resized size)) := by
  constructor
  · rfl
  · intro e out h hm
    cases e with
    | mainEventsCleared => exact Or.inl rfl
    | windowEvent wid we =>
      refine Or.inr ?_
      cases we <;> simp only [step] at h
      case resized size => exact ⟨wid, size, rfl⟩
      all_goals (injection h with h2; subst h2; simp at hm)
    | redrawRequested w2 =>
      rcases hr : env.renderResult with _ | er <;> simp only [step, hr] at h <;>
        (injection h with h2; subst h2) <;> simp at hm
    | newEvents c =>
      simp only [step] at h; injection h with h2; subst h2; simp at hm
    | deviceEvent d ev =>
      simp only [step] at h; injection h with h2; subst h2; simp at hm
    | userEvent =>
      simp only [step] at h; injection h with h2; subst h2; simp at hm
    | suspended =>
      simp only [step] at h; injection h with h2; subst h2; simp at hm
    | resumed =>
      simp only [step] at h; injection h with h2; subst h2; simp at hm
    | redrawEventsCleared =>
      simp only [step] at h; injection h with h2; subst h2; simp at hm
    | loopDestroyed =>
      simp only [step] at h; injection h with h2; subst h2; simp at hm

/-- Witness for C6: the redraw request observed at a concrete resize event
is covered by the resize disjunct. -/
theorem idle_cycle_update_redraw_clock_witness :
    Event.windowEvent 0 (WindowEvent.resized ⟨4, 3⟩) = Event.mainEventsCleared ∨
    ∃ wid size, Event.windowEvent 0 (WindowEvent.resized ⟨4, 3⟩) =
      Event.windowEvent wid (WindowEvent.resized size) :=
  (idle_cycle_update_redraw_clock envOk state0).2
    (Event.windowEvent 0 (WindowEvent.resized ⟨4, 3⟩))
    (⟨⟨⟨4, 3⟩, ⟨4, 3⟩⟩, 0, .wait⟩,
      [.resizeSurface ⟨4, 3⟩, .resizeBuffer ⟨4, 3⟩, .requestRedraw,
       .invoke (.onWindowResize ⟨4, 3⟩)]) rfl (by decide)

/-- Claim C7: on a redraw event the dispatcher invokes the render callback
and then attempts exactly one presentation; the render error callback is
invoked if and only if the presentation fails, receiving the failure value
with the control flow reading wait, and the presentation is never
retried. -/
theorem redraw_render_present_error (env : Env) (s : DispatchState) (wid : Nat) :
    (env.renderResult = none →
      step env s (.redrawRequested wid) =
        some (⟨s.pixels, s.dtStart, .wait⟩, [.invoke .onRender, .present])) ∧
    (∀ e, env.renderResult = some e →
      step env s (.redrawRequested wid) =
        some (⟨s.pixels, s.dtStart, env.renderErrorSetControlFlow.getD .wait⟩,
          [.invoke .onRender, .present, .invoke (.onRenderError e .wait)])) ∧
    (∀ out, step env s (.redrawRequested wid) = some out →
      out.2.countP isPresent = 1 ∧
      ((∃ e cf, Action.invoke (.onRenderError e cf) ∈ out.2) ↔
        env.renderResult.isSome = true)) := by
  rcases hr : env.renderResult with _ | er
  · refine ⟨fun _ => by simp [step, hr], fun e he => ?_, fun out h => ?_⟩
    · exact Option.noConfusion he
    · simp only [step, hr] at h
      injection h with h2; subst h2
      constructor
      · simp [List.countP_cons, isPresent]
      · simp [hr]
  · refine ⟨fun he => ?_, fun e he => ?_, fun out h => ?_⟩
    · exact Option.noConfusion he
    · injection he with h2; subst h2
      simp [step, hr]
    · simp only [step, hr] at h
      injection h with h2; subst h2
      constructor
      · simp [List.countP_cons, isPresent]
      · simp only [hr, Option.isSome_some, iff_true]
        exact ⟨er, .wait, by simp⟩

/-- Witness for C7 at a concrete failing presentation. -/
theorem redraw_render_present_error_witness :
    step envRenderFail state0 (.redrawRequested 0) =
      some (⟨state0.pixels, state0.dtStart, .wait⟩,
        [.invoke .onRender, .present, .invoke (.onRenderError 7 .wait)]) :=
  (redraw_render_present_error envRenderFail state0 0).2.1 7 rfl

/-- Claim C10: the dispatcher resets the control flow to wait at the start
of every iteration, before the event is examined: the update and the render
error callbacks always observe the value wait, and the result of an
iteration does not depend on the control flow directive left by an earlier
iteration. -/
theorem control_flow_reset_to_wait (env : Env) (s : DispatchState) :
    (∀ e out, step env s e = some out → ∀ dt cf,
      Callback.onUpdate dt cf ∈ callbacksOf out.2 → cf = .wait) ∧
    (∀ e out, step env s e = some out → ∀ er cf,
      Callback.onRenderError er cf ∈ callbacksOf out.2 → cf = .wait) ∧
    (∀ cf e, step env ⟨s.pixels, s.dtStart, cf⟩ e = step env s e) := by
  refine ⟨?_, ?_, ?_⟩
  · intro e out h dt cf hm
    cases e with
    | mainEventsCleared =>
      simp only [step] at h; injection h with h2; subst h2
      simp [callbacksOf] at hm
      exact hm.2
    | windowEvent w2 we =>
      cases we <;> simp only [step] at h
      case resized size =>
        rcases hs : env.surfaceResizeOk <;> rcases hb : env.bufferResizeOk <;>
          rw [hs, hb] at h
        · exact Option.noConfusion h
        · exact Option.noConfusion h
        · exact Option.noConfusion h
        · injection h with h2; subst h2; simp [callbacksOf] at hm
      all_goals (injection h with h2; subst h2; simp [callbacksOf] at hm)
    | redrawRequested w2 =>
      rcases hr : env.renderResult with _ | er2 <;> simp only [step, hr] at h <;>
        (injection h with h2; subst h2) <;> simp [callbacksOf] at hm
    | newEvents c =>
      simp only [step] at h; injection h with h2; subst h2; simp [callbacksOf] at hm
    | deviceEvent d ev =>
      simp only [step] at h; injection h with h2; subst h2; simp [callbacksOf] at hm
    | userEvent =>
      simp only [step] at h; injection h with h2; subst h2; simp [callbacksOf] at hm
    | suspended =>
      simp only [step] at h; injection h with h2; subst h2; simp [callbacksOf] at hm
    | resumed =>
      simp only [step] at h; injection h with h2; subst h2; simp [callbacksOf] at hm
    | redrawEventsCleared =>
      simp only [step] at h; injection h with h2; subst h2; simp [callbacksOf] at hm
    | loopDestroyed =>
      simp only [step] at h; injection h with h2; subst h2; simp [callbacksOf] at hm
  · intro e out h er cf hm
    cases e with
    | redrawRequested w2 =>
      rcases hr : env.renderResult with _ | er2 <;> simp only [step, hr] at h <;>
        (injection h with h2; subst h2) <;> simp [callbacksOf] at hm
      exact hm.2
    | windowEvent w2 we =>
      cases we <;> simp only [step] at h
      case resized size =>
        rcases hs : env.surfaceResizeOk <;> rcases hb : env.bufferResizeOk <;>
          rw [hs, hb] at h
        · exact Option.noConfusion h
        · exact Option.noConfusion h
        · exact Option.noConfusion h
        · injection h with h2; subst h2; simp [callbacksOf] at hm
      all_goals (injection h with h2; subst h2; simp [callbacksOf] at hm)
    | mainEventsCleared =>
      simp only [step] at h; injection h with h2; subst h2; simp [callbacksOf] at hm
    | newEvents c =>
      simp only [step] at h; injection h with h2; subst h2; simp [callbacksOf] at hm
    | deviceEvent d ev =>
      simp only [step] at h; injection h with h2; subst h2; simp [callbacksOf] at hm
    | userEvent =>
      simp only [step] at h; injection h with h2; subst h2; simp [callbacksOf] at hm
    | suspended =>
      simp only [step] at h; injection h with h2; subst h2; simp [callbacksOf] at hm
    | resumed =>
      simp only [step] at h; injection h with h2; subst h2; simp [callbacksOf] at hm
    | redrawEventsCleared =>
      simp only [step] at h; injection h with h2; subst h2; simp [callbacksOf] at hm
    | loopDestroyed =>
      simp only [step] at h; injection h with h2; subst h2; simp [callbacksOf] at hm
  · intro cf e
    cases e with
    | windowEvent w2 we => cases we <;> rfl
    | _ => rfl

/-- Witness for C10: the update callback at a concrete idle cycle observes
wait, and a stale exit directive does not change how the next event is
handled. -/
theorem control_flow_reset_to_wait_witness :
    ControlFlow.wait = ControlFlow.wait ∧
    step envOk ⟨state0.pixels, state0.dtStart, .exitWithCode 0⟩ .suspended =
      step envOk state0 .suspended :=
  ⟨(control_flow_reset_to_wait envOk state0).1 .mainEventsCleared
      (⟨state0.pixels, 5, .wait⟩,
        [.invoke (.onUpdate 5 .wait), .requestRedraw]) rfl 5 .wait (by decide),
    (control_flow_reset_to_wait envOk state0).2.2 (.exitWithCode 0) .suspended⟩

/-- Helper: callbacksOf distributes over list append. -/
theorem callbacksOf_append (a b : List Action) :
    callbacksOf (a ++ b) = callbacksOf a ++ callbacksOf b :=
  List.filterMap_append a b _

/-- Claim C4 amended: for every event sequence whose prefix neither exits
nor panics, processing a close requested or destroyed event sets the loop
control to exit and invokes the quit callback; the loop then delivers the
final loop destroyed event, whose handler invokes the quit callback once
more, so over the whole run the quit callback fires exactly twice, as the
two final callbacks, and no callback of any kind follows the second one. -/
theorem close_sets_exit_and_quit_twice (s : DispatchState)
    (pre rest : List (Event × Env)) (wid : Nat) (we : WindowEvent) (env : Env)
    (hwe : we = WindowEvent.closeRequested ∨ we = WindowEvent.destroyed)
    (hpre : ∀ p ∈ pre, stepExits p.2 p.1 = false ∧ stepPanics p.2 p.1 = false) :
    ∃ s2 t, run s (pre ++ (Event.windowEvent wid we, env) :: rest) =
        some (s2, t ++ [Action.invoke Callback.onQuit, Action.invoke Callback.onQuit]) ∧
      s2.controlFlow.isExit = true ∧
      Callback.onQuit ∉ callbacksOf t := by
  induction pre generalizing s with
  | nil =>
    refine ⟨⟨s.pixels, s.dtStart, .exitWithCode 0⟩, [], ?_, rfl, by simp [callbacksOf]⟩
    rcases hwe with rfl | rfl <;> rfl
  | cons p pre ih =>
    obtain ⟨e1, env1⟩ := p
    obtain ⟨hx1, hpn1⟩ := hpre (e1, env1) (List.mem_cons_self _ _)
    rcases hstep : step env1 s e1 with _ | out1
    · exact absurd ((stepPanics_correct env1 s e1).mp hstep) (by simp [hpn1])
    · obtain ⟨s1, acts1⟩ := out1
      have hexit : s1.controlFlow.isExit = false := by
        have hse := stepExits_correct env1 s e1 (s1, acts1) hstep
        simpa [hx1] using hse
      have hnq : Callback.onQuit ∉ callbacksOf acts1 :=
        onQuit_not_of_not_exit env1 s e1 (s1, acts1) hx1 hstep
      obtain ⟨s2, t, hrun, hex2, hnq2⟩ :=
        ih s1 (fun q hq => hpre q (List.mem_cons_of_mem _ hq))
      refine ⟨s2, acts1 ++ t, ?_, hex2, ?_⟩
      · rw [List.cons_append]
        simp only [run]
        rw [hstep]
        dsimp only
        rw [hexit]
        simp only [Bool.false_eq_true, if_false]
        rw [hrun]
        dsimp only
        rw [List.append_assoc]
      · simp [callbacksOf_append, hnq, hnq2]

/-- Witness for C4 amended: a run consisting of a single close requested
event ends exiting, with the quit callback fired as the two final
callbacks. -/
theorem close_sets_exit_and_quit_twice_witness :
    ∃ s2 t, run state0 [(Event.windowEvent 0 WindowEvent.closeRequested, envOk)] =
        some (s2, t ++ [Action.invoke Callback.onQuit, Action.invoke Callback.onQuit]) ∧
      s2.controlFlow.isExit = true ∧
      Callback.onQuit ∉ callbacksOf t :=
  close_sets_exit_and_quit_twice state0 [] [] 0 WindowEvent.closeRequested envOk
    (Or.inl rfl) (by simp)

/-- Claim C4 as stated is false: on the run consisting of one close
requested event the quit callback fires twice, not exactly once, because
the loop destroyed event delivered after the exit invokes it again. -/
theorem quit_exactly_once_counterexample :
    run state0 [(Event.windowEvent 0 WindowEvent.closeRequested, envOk)] =
      some (⟨⟨⟨8, 6⟩, ⟨8, 6⟩⟩, 0, ControlFlow.exitWithCode 0⟩,
        [Action.invoke Callback.onQuit, Action.invoke Callback.onQuit]) ∧
    (callbacksOf [Action.invoke Callback.onQuit,
        Action.invoke Callback.onQuit]).countP (fun c => c == Callback.onQuit) ≠ 1 := by
  decide

/-- Helper: no branch of the dispatcher ever invokes the window close
callback. -/
theorem onWindowClose_never (env : Env) (s : DispatchState) (e : Event)
    (out : DispatchState × List Action) (h : step env s e = some out) :
    Callback.onWindowClose ∉ callbacksOf out.2 := by
  cases e with
  | windowEvent wid we =>
    cases we <;> simp only [step] at h
    case resized size =>
      rcases hs : env.surfaceResizeOk <;> rcases hb : env.bufferResizeOk <;>
        rw [hs, hb] at h
      · exact Option.noConfusion h
      · exact Option.noConfusion h
      · exact Option.noConfusion h
      · injection h with h2; subst h2; simp [callbacksOf]
    all_goals (injection h with h2; subst h2; simp [callbacksOf])
  | redrawRequested wid =>
    rcases hr : env.renderResult with _ | er <;> simp only [step, hr] at h <;>
      (injection h with h2; subst h2) <;> simp [callbacksOf]
  | newEvents c =>
    simp only [step] at h; injection h with h2; subst h2; simp [callbacksOf]
  | deviceEvent d ev =>
    simp only [step] at h; injection h with h2; subst h2; simp [callbacksOf]
  | userEvent =>
    simp only [step] at h; injection h with h2; subst h2; simp [callbacksOf]
  | suspended =>
    simp only [step] at h; injection h with h2; subst h2; simp [callbacksOf]
  | resumed =>
    simp only [step] at h; injection h with h2; subst h2; simp [callbacksOf]
  | redrawEventsCleared =>
    simp only [step] at h; injection h with h2; subst h2; simp [callbacksOf]
  | mainEventsCleared =>
    simp only [step] at h; injection h with h2; subst h2; simp [callbacksOf]
  | loopDestroyed =>
    simp only [step] at h; injection h with h2; subst h2; simp [callbacksOf]

/-- Claim C5 amended: thirteen of the fourteen processor methods are
exercised: the start callback is invoked once before the loop, as the first
action of every run, and each of update, render, render error, input,
click, scroll, cursor move, cursor presence, window resize, window focus,
quit and catch-all is dispatched by some event; the window close callback
is never invoked by the dispatcher. -/
theorem callback_interface_coverage :
    (∀ q events out, QuixelWindow.start q events = some out →
      out.2.head? = some (.invoke .onStart)) ∧
    stepCallbacks envOk state0 .mainEventsCleared = some [.onUpdate 5 .wait] ∧
    stepCallbacks envOk state0 (.redrawRequested 0) = some [.onRender] ∧
    stepCallbacks envRenderFail state0 (.redrawRequested 0) =
      some [.onRender, .onRenderError 7 .wait] ∧
    stepCallbacks envOk state0 (.windowEvent 0 (.keyboardInput key0)) =
      some [.onInput key0] ∧
    stepCallbacks envOk state0 (.windowEvent 0 (.mouseInput .pressed .left)) =
      some [.onClick .pressed .left] ∧
    stepCallbacks envOk state0 (.windowEvent 0 (.mouseWheel (.lineDelta 1 2) .started)) =
      some [.onScroll (.lineDelta 1 2) .started] ∧
    stepCallbacks envOk state0 (.windowEvent 0 (.cursorMoved ⟨1, 2⟩)) =
      some [.onCursorMove ⟨1, 2⟩] ∧
    stepCallbacks envOk state0 (.windowEvent 0 .cursorEntered) =
      some [.onCursorInWindowChange true] ∧
    stepCallbacks envOk state0 (.windowEvent 0 (.resized ⟨4, 3⟩)) =
      some [.onWindowResize ⟨4, 3⟩] ∧
    stepCallbacks envOk state0 (.windowEvent 0 (.focused true)) =
      some [.onWindowFocus true] ∧
    stepCallbacks envOk state0 (.windowEvent 0 .closeRequested) = some [.onQuit] ∧
    stepCallbacks envOk state0 .suspended = some [.onMiscEvent .suspended] ∧
    (∀ env s e out, step env s e = some out →
      Callback.onWindowClose ∉ callbacksOf out.2) := by
  refine ⟨?_, by decide, by decide, by decide, by decide, by decide, by decide,
    by decide, by decide, by decide, by decide, by decide, by decide, ?_⟩
  · intro q events out h
    unfold QuixelWindow.start at h
    rcases hr : run (initState q) events with _ | p
    · rw [hr] at h; exact Option.noConfusion h
    · obtain ⟨s, acts⟩ := p
      rw [hr] at h
      injection h with h2; subst h2
      rfl
  · intro env s e out h
    exact onWindowClose_never env s e out h

/-- Witness for C5 amended at a concrete close event. -/
theorem callback_interface_coverage_witness :
    Callback.onWindowClose ∉ callbacksOf [Action.invoke Callback.onQuit] := by
  have h := callback_interface_coverage
  exact h.2.2.2.2.2.2.2.2.2.2.2.2.2 envOk state0 (.windowEvent 0 .closeRequested)
    (⟨state0.pixels, 0, .exitWithCode 0⟩, [.invoke .onQuit]) rfl

/-- Claim C5 as stated is false: there is no event for which the dispatcher
invokes the window close callback; the method is declared in the interface
but never called. -/
theorem window_close_never_invoked_counterexample :
    ¬ ∃ env s e out, step env s e = some out ∧
      Callback.onWindowClose ∈ callbacksOf out.2 := by
  rintro ⟨env, s, e, out, h, hm⟩
  exact onWindowClose_never env s e out h hm

end Quixel
